import Mathlib

/-!
Shallow embedding of the m3 fileset writer (`src/persist/fs/write.go`).

Modelling decisions:
- `time.Time` and `time.Duration` are carried as `Int` nanoseconds
  (`xtime.ToNanoseconds` is the identity under this representation).
- `os.FileMode` is a `Nat` bit pattern; `os.ModeDir` is bit 31.
- File contents are modelled at the record level: the info file as a list of
  `IndexInfo` records, the index file as a list of `IndexEntry` records (the
  byte-level length-prefixed codec is an external collaborator), and the data
  file as a list of bytes (`Nat`).
- Go methods mutate the receiver in place and return an `error`; here each
  operation returns the updated `Writer` paired with an `Option Err`.
- I/O failures are injected through explicit fault structures: each fallible
  primitive consults its fault slot and fails with that error, which mirrors
  the code's propagate-first-error structure.
-/

namespace M3FS

/-- Errors are opaque values; we only compare them. -/
abbrev Err := String

/-- The per-entry index record (`schema.IndexEntry`): entry index, total byte
size, and the caller-supplied key. -/
structure IndexEntry where
  idx : Int
  size : Int
  key : String
deriving Repr, DecidableEq, Inhabited

/-- The summary record (`schema.IndexInfo`): block start time in nanoseconds,
block size in nanoseconds, and the entry count. -/
structure IndexInfo where
  start : Int
  blockSize : Int
  entries : Int
deriving Repr, DecidableEq, Inhabited

/-- `os.ModeDir`: bit 31 of a Go `os.FileMode`. -/
def osModeDir : Nat := 2 ^ 31

/-- `defaultNewFileMode = os.FileMode(0666)` (438 decimal). -/
def defaultNewFileMode : Nat := 438

/-- `defaultNewDirectoryMode = os.ModeDir | os.FileMode(0755)` (0755 = 493). -/
def defaultNewDirectoryMode : Nat := osModeDir ||| 493

/-- File suffix for the info file. -/
def infoFileSuffix : String := "info"

/-- File suffix for the index file. -/
def indexFileSuffix : String := "index"

/-- File suffix for the data file. -/
def dataFileSuffix : String := "data"

/-- File suffix for the checkpoint file. -/
def checkpointFileSuffix : String := "checkpoint"

/-- Modelled from the spec: the external Shard Path Resolver's `ShardDirPath`
(not under src/): deterministically produces the shard directory from the root
path and the shard id. -/
def ShardDirPath (rootPath : String) (shard : Nat) : String :=
  rootPath ++ "/" ++ toString shard

/-- Modelled from the spec: the external Shard Path Resolver's
`filepathFromTime` (not under src/): deterministically produces a distinct file
path from the directory, the block start time and a suffix. -/
def filepathFromTime (dir : String) (t : Int) (suffix : String) : String :=
  dir ++ "/" ++ toString t ++ "-" ++ suffix ++ ".db"

/-- `xtime.ToNanoseconds`: time is already carried as nanoseconds in this
model, so the conversion is the identity. -/
def xtimeToNanoseconds (t : Int) : Int := t

/-- The `writer` struct of `write.go`. The `infoFd`/`indexFd`/`dataFd` handles
are represented by the contents of the files they point at; the in-memory
proto buffers are transient and not part of the observable state. The source
field `filePathPrefix` is embedded as `rootPath`. -/
structure Writer where
  blockSize : Int
  rootPath : String
  newFileMode : Nat
  newDirectoryMode : Nat
  start : Int
  checkpointFilePath : String
  currIdx : Int
  infoFile : List IndexInfo
  indexFile : List IndexEntry
  dataFile : List Nat
  checkpointExists : Bool
deriving Repr, DecidableEq

/-- The `writerOptions` struct of `write.go`. -/
structure writerOptions where
  newFileMode : Nat
  newDirectoryMode : Nat
deriving Repr, DecidableEq

/-- `NewWriterOptions` of `write.go`: both fields at their defaults. -/
def NewWriterOptions : writerOptions :=
  { newFileMode := defaultNewFileMode
    newDirectoryMode := defaultNewDirectoryMode }

/-- `(*writerOptions) NewFileMode`: copies the receiver (`opts := *o`), sets
the field on the copy, and returns the copy. -/
def writerOptions.NewFileMode (o : writerOptions) (value : Nat) : writerOptions :=
  { o with newFileMode := value }

/-- `(*writerOptions) GetNewFileMode`. -/
def writerOptions.GetNewFileMode (o : writerOptions) : Nat :=
  o.newFileMode

/-- `(*writerOptions) NewDirectoryMode`: copies the receiver, sets the field on
the copy, and returns the copy. -/
def writerOptions.NewDirectoryMode (o : writerOptions) (value : Nat) : writerOptions :=
  { o with newDirectoryMode := value }

/-- `(*writerOptions) GetNewDirectoryMode`. -/
def writerOptions.GetNewDirectoryMode (o : writerOptions) : Nat :=
  o.newDirectoryMode

/-- `NewWriter(blockSize, filePathPrefix, options)`: a `nil` options argument
resolves to `NewWriterOptions()`. Fields of the Go struct not named in the
composite literal start at their zero values. -/
def NewWriter (blockSize : Int) (rootPath : String)
    (options : Option writerOptions) : Writer :=
  let opts := match options with
    | none => NewWriterOptions
    | some o => o
  { blockSize := blockSize
    rootPath := rootPath
    newFileMode := opts.GetNewFileMode
    newDirectoryMode := opts.GetNewDirectoryMode
    start := 0
    checkpointFilePath := ""
    currIdx := 0
    infoFile := []
    indexFile := []
    dataFile := []
    checkpointExists := false }

/-- Injected faults for the fallible primitives `Open` calls: `os.MkdirAll`
and the three `openWritable` calls made through `openFiles`. -/
structure OpenFaults where
  mkdirErr : Option Err
  openInfoErr : Option Err
  openIndexErr : Option Err
  openDataErr : Option Err
deriving Repr, DecidableEq

/-- The fault-free `OpenFaults`. -/
def noOpenFaults : OpenFaults := ⟨none, none, none, none⟩

/-- Modelled from the spec: the `openFiles` helper (not under src/) opens a set
of named handles and fails if any open fails, cleaning up any already-opened
handles. The Go call site passes the three files in a map whose iteration
order is unspecified; this model reports faults in info/index/data order (the
claims never depend on which of several simultaneous faults is reported). -/
def openFilesErr (f : OpenFaults) : Option Err :=
  match f.openInfoErr with
  | some e => some e
  | none =>
    match f.openIndexErr with
    | some e => some e
    | none => f.openDataErr

/-- Modelled from the spec: the part of `Open` elided from the excerpt —
"Resets the internal entry counter (`currIdx`) to 0". -/
def resetEntryCounter (w : Writer) : Writer :=
  { w with currIdx := 0 }

/-- `(*writer) Open(shard, blockStart)`: creates the shard directory, then
stores the new start time and checkpoint file path on the receiver, then opens
(creating and truncating) the info, index and data files. On success the three
files are empty (`O_TRUNC`); a pre-existing checkpoint file is not touched. -/
def Writer.Open (w : Writer) (shard : Nat) (blockStart : Int)
    (f : OpenFaults) : Writer × Option Err :=
  let shardDir := ShardDirPath w.rootPath shard
  match f.mkdirErr with
  | some e => (w, some e)
  | none =>
    let w1 := resetEntryCounter
      { w with
          start := blockStart
          checkpointFilePath := filepathFromTime shardDir blockStart checkpointFileSuffix }
    match openFilesErr f with
    | some e => (w1, some e)
    | none => ({ w1 with infoFile := [], indexFile := [], dataFile := [] }, none)

/-- Injected faults for the fallible steps of `WriteAll`: the index-entry
marshal, the index-file write, and the per-segment `writeData` calls (one slot
per segment position; missing slots mean no fault). -/
structure WriteFaults where
  marshalErr : Option Err
  indexWriteErr : Option Err
  dataWriteErrs : List (Option Err)
deriving Repr, DecidableEq

/-- The fault-free `WriteFaults`. -/
def noWriteFaults : WriteFaults := ⟨none, none, []⟩

/-- `totalSize` computation of `WriteAll`: `for _, d := range data { size +=
int64(len(d)) }`. -/
def totalSize (data : List (List Nat)) : Int :=
  data.foldl (fun acc d => acc + (d.length : Int)) 0

/-- The `for _, d := range data { if err := w.writeData(d); ... }` loop of
`WriteAll`: appends each segment's bytes to the data file in order, stopping
at the first injected fault. -/
def writeDataLoop : List Nat → List (List Nat) → List (Option Err) →
    List Nat × Option Err
  | file, [], _ => (file, none)
  | file, d :: ds, errs =>
    match errs.headD none with
    | some e => (file, some e)
    | none => writeDataLoop (file ++ d) ds errs.tail

/-- `(*writer) WriteAll(key, data)`: sums the segment lengths; a zero total is
a silent no-op. Otherwise fills the index entry from `currIdx`, the size and
the key, marshals and appends it to the index file, writes each segment to the
data file in order, and increments `currIdx` on success (the index-file append
and the final `currIdx++` are elided from the excerpt and follow the spec's
order: index record first, then data, then the increment). -/
def Writer.WriteAll (w : Writer) (key : String) (data : List (List Nat))
    (f : WriteFaults) : Writer × Option Err :=
  let size := totalSize data
  if size = 0 then (w, none)
  else
    let entry : IndexEntry := { idx := w.currIdx, size := size, key := key }
    match f.marshalErr with
    | some e => (w, some e)
    | none =>
      match f.indexWriteErr with
      | some e => (w, some e)
      | none =>
        let w1 := { w with indexFile := w.indexFile ++ [entry] }
        match writeDataLoop w1.dataFile data f.dataWriteErrs with
        | (file, some e) => ({ w1 with dataFile := file }, some e)
        | (file, none) =>
          ({ w1 with dataFile := file, currIdx := w1.currIdx + 1 }, none)

/-- `(*writer) Write(key, data)`: returns nil for empty data, otherwise
delegates to `WriteAll` with a one-element sequence. -/
def Writer.Write (w : Writer) (key : String) (data : List Nat)
    (f : WriteFaults) : Writer × Option Err :=
  if data.length = 0 then (w, none)
  else w.WriteAll key [data] f

/-- Injected faults for the fallible steps of `Close`: the info marshal, the
info-file write, the three file-handle closes, and the `openWritable` call
that creates the checkpoint file. -/
structure CloseFaults where
  marshalErr : Option Err
  infoWriteErr : Option Err
  closeInfoErr : Option Err
  closeIndexErr : Option Err
  closeDataErr : Option Err
  checkpointOpenErr : Option Err
deriving Repr, DecidableEq

/-- The fault-free `CloseFaults`. -/
def noCloseFaults : CloseFaults := ⟨none, none, none, none, none, none⟩

/-- Modelled from the spec: the `closeFiles` helper (not under src/) closes
all handles and returns the first error encountered while still attempting to
close the rest. -/
def closeFiles (e1 e2 e3 : Option Err) : Option Err :=
  match e1 with
  | some e => some e
  | none =>
    match e2 with
    | some e => some e
    | none => e3

/-- `(*writer) writeCheckpointFile()`: opens (creating, truncating) the
checkpoint file at the stored path and immediately closes it; on success the
checkpoint file exists with zero content. The ignored `fd.Close()` error
cannot fail the operation. -/
def Writer.writeCheckpointFile (w : Writer) (openErr : Option Err) :
    Writer × Option Err :=
  match openErr with
  | some e => (w, some e)
  | none => ({ w with checkpointExists := true }, none)

/-- `(*writer) Close()`: builds the info record from the stored start, block
size and `currIdx`; marshals and writes it to the info file; closes the three
handles via `closeFiles`, returning its error if any; and only then creates
the checkpoint file as the last action. -/
def Writer.Close (w : Writer) (f : CloseFaults) : Writer × Option Err :=
  let info : IndexInfo :=
    { start := xtimeToNanoseconds w.start
      blockSize := w.blockSize
      entries := w.currIdx }
  match f.marshalErr with
  | some e => (w, some e)
  | none =>
    match f.infoWriteErr with
    | some e => (w, some e)
    | none =>
      let w1 := { w with infoFile := w.infoFile ++ [info] }
      match closeFiles f.closeInfoErr f.closeIndexErr f.closeDataErr with
      | some e => (w1, some e)
      | none => w1.writeCheckpointFile f.checkpointOpenErr

/-- A sequence of fault-free `WriteAll` calls, applied left to right. -/
def runWrites (w : Writer) (ws : List (String × List (List Nat))) : Writer :=
  ws.foldl (fun w p => (w.WriteAll p.1 p.2 noWriteFaults).1) w

/-- Sum of the `size` fields recorded in an index file. -/
def sumSizes (l : List IndexEntry) : Int :=
  (l.map (fun e => e.size)).sum

/-- The open-to-close invariant the claims track: the entry counter equals the
number of index records, index records carry contiguous indices starting at 0,
and the recorded sizes sum to the data-file length. -/
def writerInv (w : Writer) : Prop :=
  w.currIdx = (w.indexFile.length : Int)
  ∧ (∀ i, i < w.indexFile.length →
      (w.indexFile.getD i default).idx = (i : Int))
  ∧ sumSizes w.indexFile = (w.dataFile.length : Int)

/-- A concrete writer used by the witness theorems: two-hour block size over a
temp root, default options. -/
def demoWriter : Writer := NewWriter 7200000000000 "/tmp/m3" none

/-- A concrete write sequence used by the witness theorems; the middle write
has total size zero and is skipped by `WriteAll`. -/
def demoWs : List (String × List (List Nat)) :=
  [("seriesA", [[9, 9]]), ("seriesB", [[]]), ("seriesC", [[7]])]

end M3FS

namespace M3FS

theorem writeDataLoop_noFaults (segs : List (List Nat)) (file : List Nat) :
    writeDataLoop file segs [] = (file ++ segs.flatten, none) := by
  induction segs generalizing file with
  | nil => simp [writeDataLoop]
  | cons d ds ih =>
    simp [writeDataLoop, ih (file ++ d), List.append_assoc]

theorem totalSize_eq_sum (data : List (List Nat)) :
    totalSize data = (((data.map List.length)).sum : Int) := by
  unfold totalSize
  suffices h : ∀ a : Int,
      data.foldl (fun acc d => acc + (d.length : Int)) a
        = a + (((data.map List.length)).sum : Int) by
    simpa using h 0
  induction data with
  | nil => simp
  | cons d ds ih =>
    intro a
    simp only [List.foldl_cons, List.map_cons, List.sum_cons, ih, Int.ofNat_add]
    ring

theorem totalSize_flatten_length (data : List (List Nat)) :
    ((data.flatten).length : Int) = totalSize data := by
  rw [totalSize_eq_sum, List.length_flatten]

theorem WriteAll_zero (w : Writer) (key : String) (data : List (List Nat))
    (f : WriteFaults) (h : totalSize data = 0) :
    w.WriteAll key data f = (w, none) := by
  simp [Writer.WriteAll, h]

theorem WriteAll_pos (w : Writer) (key : String) (data : List (List Nat))
    (h : totalSize data ≠ 0) :
    w.WriteAll key data noWriteFaults =
      ({ w with
          indexFile := w.indexFile ++ [⟨w.currIdx, totalSize data, key⟩]
          dataFile := w.dataFile ++ data.flatten
          currIdx := w.currIdx + 1 }, none) := by
  simp [Writer.WriteAll, h, noWriteFaults, writeDataLoop_noFaults]

theorem WriteAll_frame (w : Writer) (k : String) (d : List (List Nat)) :
    ((w.WriteAll k d noWriteFaults).1).start = w.start
    ∧ ((w.WriteAll k d noWriteFaults).1).blockSize = w.blockSize
    ∧ ((w.WriteAll k d noWriteFaults).1).infoFile = w.infoFile
    ∧ ((w.WriteAll k d noWriteFaults).1).checkpointExists = w.checkpointExists := by
  by_cases h : totalSize d = 0
  · rw [WriteAll_zero w k d noWriteFaults h]
    exact ⟨rfl, rfl, rfl, rfl⟩
  · rw [WriteAll_pos w k d h]
    exact ⟨rfl, rfl, rfl, rfl⟩

theorem runWrites_frame (ws : List (String × List (List Nat))) (w : Writer) :
    (runWrites w ws).start = w.start
    ∧ (runWrites w ws).blockSize = w.blockSize
    ∧ (runWrites w ws).infoFile = w.infoFile
    ∧ (runWrites w ws).checkpointExists = w.checkpointExists := by
  induction ws generalizing w with
  | nil => exact ⟨rfl, rfl, rfl, rfl⟩
  | cons p ps ih =>
    have h1 := WriteAll_frame w p.1 p.2
    have h2 := ih ((w.WriteAll p.1 p.2 noWriteFaults).1)
    have hc : runWrites w (p :: ps)
        = runWrites ((w.WriteAll p.1 p.2 noWriteFaults).1) ps := rfl
    rw [hc]
    exact ⟨h2.1.trans h1.1, h2.2.1.trans h1.2.1, h2.2.2.1.trans h1.2.2.1,
      h2.2.2.2.trans h1.2.2.2⟩

theorem runWrites_currIdx (ws : List (String × List (List Nat))) (w : Writer)
    (h : ∀ p ∈ ws, totalSize p.2 ≠ 0) :
    (runWrites w ws).currIdx = w.currIdx + ws.length := by
  induction ws generalizing w with
  | nil => simp [runWrites]
  | cons p ps ih =>
    have hc : runWrites w (p :: ps)
        = runWrites ((w.WriteAll p.1 p.2 noWriteFaults).1) ps := rfl
    rw [hc, ih _ (fun q hq => h q (List.mem_cons_of_mem p hq)),
      WriteAll_pos w p.1 p.2 (h p (List.mem_cons_self p ps))]
    simp only [List.length_cons]
    push_cast
    ring

theorem WriteAll_inv (w : Writer) (k : String) (d : List (List Nat))
    (h : writerInv w) : writerInv ((w.WriteAll k d noWriteFaults).1) := by
  by_cases hz : totalSize d = 0
  · rw [WriteAll_zero w k d noWriteFaults hz]
    exact h
  · rw [WriteAll_pos w k d hz]
    obtain ⟨hidx, hget, hsum⟩ := h
    refine ⟨?_, ?_, ?_⟩
    · simp only [List.length_append, List.length_singleton]
      rw [hidx]
      push_cast
      ring
    · intro i hi
      simp only [List.length_append, List.length_singleton] at hi
      rcases Nat.lt_or_ge i w.indexFile.length with hlt | hge
      · rw [List.getD_append _ _ _ _ hlt]
        exact hget i hlt
      · have hie : i = w.indexFile.length := by omega
        rw [List.getD_append_right _ _ _ _ hge, hie]
        simp [hidx]
    · simp only [sumSizes, List.map_append, List.sum_append, List.length_append]
      rw [← sumSizes, hsum]
      simp only [List.map_singleton, List.sum_singleton]
      rw [← totalSize_flatten_length d]
      push_cast
      ring

theorem runWrites_inv (ws : List (String × List (List Nat))) (w : Writer)
    (h : writerInv w) : writerInv (runWrites w ws) := by
  induction ws generalizing w with
  | nil => exact h
  | cons p ps ih =>
    have hc : runWrites w (p :: ps)
        = runWrites ((w.WriteAll p.1 p.2 noWriteFaults).1) ps := rfl
    rw [hc]
    exact ih _ (WriteAll_inv w p.1 p.2 h)

theorem Open_noFaults (w : Writer) (shard : Nat) (blockStart : Int) :
    w.Open shard blockStart noOpenFaults =
      ({ w with
          start := blockStart
          checkpointFilePath :=
            filepathFromTime (ShardDirPath w.rootPath shard) blockStart
              checkpointFileSuffix
          currIdx := 0
          infoFile := []
          indexFile := []
          dataFile := [] }, none) := rfl

theorem Close_noFaults (w : Writer) :
    w.Close noCloseFaults =
      ({ w with
          infoFile := w.infoFile ++
            [⟨xtimeToNanoseconds w.start, w.blockSize, w.currIdx⟩]
          checkpointExists := true }, none) := rfl

theorem open_writerInv (w : Writer) (shard : Nat) (blockStart : Int) :
    writerInv ((w.Open shard blockStart noOpenFaults).1) := by
  rw [Open_noFaults]
  refine ⟨by simp [writerInv], ?_, by simp [sumSizes]⟩
  intro i hi
  simp at hi

/-- Claim C4: for every key and every sequence of segments whose lengths sum
to 0 (including the empty sequence), `WriteAll` on an open writer returns
success and leaves the writer unchanged — no index or data bytes are written
and `currIdx` is untouched — so the next non-empty write receives the same
index it would have received had the empty write not occurred. -/
theorem writeAll_zero_total_is_noop (w : Writer) (key : String)
    (data : List (List Nat)) (f : WriteFaults) (h : totalSize data = 0) :
    w.WriteAll key data f = (w, none)
    ∧ ∀ (key2 : String) (data2 : List (List Nat)) (f2 : WriteFaults),
        ((w.WriteAll key data f).1).WriteAll key2 data2 f2
          = w.WriteAll key2 data2 f2 := by
  have h1 := WriteAll_zero w key data f h
  exact ⟨h1, fun k2 d2 f2 => by rw [h1]⟩

/-- Witness for C4 at the zero-length two-segment write of the spec's concrete
scenario. -/
theorem writeAll_zero_total_is_noop_witness :
    totalSize [[], []] = 0
    ∧ demoWriter.WriteAll "seriesB" [[], []] noWriteFaults
        = (demoWriter, none) :=
  ⟨by decide,
    (writeAll_zero_total_is_noop demoWriter "seriesB" [[], []] noWriteFaults
      (by decide)).1⟩

/-- Claim C5: a successful `Open` resets the entry counter `currIdx` to 0 and
records `blockStart` as the block's start time. -/
theorem open_resets_counter_and_start (w : Writer) (shard : Nat)
    (blockStart : Int) (f : OpenFaults)
    (h : (w.Open shard blockStart f).2 = none) :
    ((w.Open shard blockStart f).1).currIdx = 0
    ∧ ((w.Open shard blockStart f).1).start = blockStart := by
  unfold Writer.Open at h ⊢
  rcases hm : f.mkdirErr with _ | e
  · simp only [hm] at h ⊢
    rcases ho : openFilesErr f with _ | e
    · simp only [ho] at h ⊢
      exact ⟨rfl, rfl⟩
    · simp [ho] at h
  · simp [hm] at h

/-- Witness for C5: a fault-free `Open` of shard 3 at start time 1234. -/
theorem open_resets_counter_and_start_witness :
    (demoWriter.Open 3 1234 noOpenFaults).2 = none
    ∧ ((demoWriter.Open 3 1234 noOpenFaults).1).currIdx = 0
    ∧ ((demoWriter.Open 3 1234 noOpenFaults).1).start = 1234 :=
  ⟨rfl,
    (open_resets_counter_and_start demoWriter 3 1234 noOpenFaults rfl).1,
    (open_resets_counter_and_start demoWriter 3 1234 noOpenFaults rfl).2⟩

/-- Claim C6: `Write(key, data)` is observationally equivalent to
`WriteAll(key, [data])`: the same error value, the same file writes and the
same `currIdx` update (the two sides are equal as state transformers). -/
theorem write_eq_writeAll_singleton (w : Writer) (key : String)
    (data : List Nat) (f : WriteFaults) :
    w.Write key data f = w.WriteAll key [data] f := by
  unfold Writer.Write
  by_cases h : data.length = 0
  · have hz : totalSize [data] = 0 := by simp [totalSize, h]
    rw [if_pos h, WriteAll_zero w key [data] f hz]
  · rw [if_neg h]

/-- Claim C8: the options setters are copy-on-write: `NewFileMode` returns a
value whose `GetNewFileMode` is the given mode while the other field is
preserved, and symmetrically for `NewDirectoryMode`. The receiver itself is
never mutated: the source copies the struct (`opts := *o`) before assigning,
which is exactly the value semantics of this embedding. -/
theorem writerOptions_copy_on_write (o : writerOptions) (m : Nat) :
    (o.NewFileMode m).GetNewFileMode = m
    ∧ (o.NewFileMode m).GetNewDirectoryMode = o.GetNewDirectoryMode
    ∧ (o.NewDirectoryMode m).GetNewDirectoryMode = m
    ∧ (o.NewDirectoryMode m).GetNewFileMode = o.GetNewFileMode :=
  ⟨rfl, rfl, rfl, rfl⟩

/-- Claim C9: `NewWriter` with a nil options argument builds the same writer
as one constructed with `NewWriterOptions()`: file mode 0666 (438) and
directory mode `os.ModeDir | 0755` with the directory bit set. -/
theorem newWriter_nil_options_defaults (bs : Int) (p : String) :
    NewWriter bs p none = NewWriter bs p (some NewWriterOptions)
    ∧ (NewWriter bs p none).newFileMode = 438
    ∧ (NewWriter bs p none).newDirectoryMode = defaultNewDirectoryMode
    ∧ defaultNewDirectoryMode = osModeDir ||| 493
    ∧ defaultNewDirectoryMode &&& osModeDir = osModeDir :=
  ⟨rfl, rfl, rfl, rfl, by decide⟩

/-- Claim C10: `Open` is not atomic on the writer's state: it stores the new
start time and checkpoint path before attempting to open the info/index/data
files, so a file-open failure returns an error with those fields already
overwritten; only a directory-creation failure leaves the writer unchanged. -/
theorem open_stores_state_before_file_opens (w : Writer) (shard : Nat)
    (t : Int) (f : OpenFaults) :
    (∀ e, f.mkdirErr = some e → w.Open shard t f = (w, some e))
    ∧ (f.mkdirErr = none → ∀ e, openFilesErr f = some e →
        (w.Open shard t f).2 = some e
        ∧ ((w.Open shard t f).1).start = t
        ∧ ((w.Open shard t f).1).checkpointFilePath =
            filepathFromTime (ShardDirPath w.rootPath shard) t
              checkpointFileSuffix) := by
  constructor
  · intro e he
    unfold Writer.Open
    simp only [he]
  · intro hm e ho
    unfold Writer.Open
    simp only [hm, ho]
    exact ⟨trivial, rfl, rfl⟩

/-- Witness for C10: opening the info file fails, yet the start time and
checkpoint path were already overwritten; a mkdir failure leaves the writer
untouched. -/
theorem open_stores_state_before_file_opens_witness :
    (demoWriter.Open 3 5 ⟨none, some "io", none, none⟩).2 = some "io"
    ∧ ((demoWriter.Open 3 5 ⟨none, some "io", none, none⟩).1).start = 5
    ∧ demoWriter.Open 3 5 ⟨some "mkdir", none, none, none⟩
        = (demoWriter, some "mkdir") := by
  have h1 := (open_stores_state_before_file_opens demoWriter 3 5
    ⟨none, some "io", none, none⟩).2 rfl "io" rfl
  have h2 := (open_stores_state_before_file_opens demoWriter 3 5
    ⟨some "mkdir", none, none, none⟩).1 "mkdir" rfl
  exact ⟨h1.1, h1.2.1, h2⟩

/-- Claim C1: if closing any of the info/index/data handles fails, `Close`
returns that error and the checkpoint file is not created; the checkpoint file
is created only when all three handles close successfully, and its creation is
the last action of a successful `Close` (the final state differs from the
pre-checkpoint state only in the checkpoint flag). -/
theorem close_checkpoint_gating (w : Writer) (f : CloseFaults)
    (hm : f.marshalErr = none) (hi : f.infoWriteErr = none) :
    (∀ e, closeFiles f.closeInfoErr f.closeIndexErr f.closeDataErr = some e →
        (w.Close f).2 = some e
        ∧ ((w.Close f).1).checkpointExists = w.checkpointExists)
    ∧ (closeFiles f.closeInfoErr f.closeIndexErr f.closeDataErr = none →
        f.checkpointOpenErr = none →
        w.Close f =
          ({ w with
              infoFile := w.infoFile ++
                [⟨xtimeToNanoseconds w.start, w.blockSize, w.currIdx⟩]
              checkpointExists := true }, none))
    ∧ (((w.Close f).1).checkpointExists = true → w.checkpointExists = false →
        (w.Close f).2 = none
        ∧ closeFiles f.closeInfoErr f.closeIndexErr f.closeDataErr = none) := by
  unfold Writer.Close
  simp only [hm, hi]
  refine ⟨?_, ?_, ?_⟩
  · intro e he
    simp only [he]
    constructor <;> trivial
  · intro hc ho
    simp only [hc, ho, Writer.writeCheckpointFile]
  · rcases hc : closeFiles f.closeInfoErr f.closeIndexErr f.closeDataErr
        with _ | e
    · rcases ho : f.checkpointOpenErr with _ | e
      · simp only [hc, ho, Writer.writeCheckpointFile]
        intro _ _
        constructor <;> trivial
      · simp only [hc, ho, Writer.writeCheckpointFile]
        intro h1 h2
        rw [h1] at h2
        cases h2
    · simp only [hc]
      intro h1 h2
      rw [h1] at h2
      cases h2

/-- Witness for C1: a failing index-handle close blocks the checkpoint, and a
fault-free `Close` creates it as the final step. -/
theorem close_checkpoint_gating_witness :
    (demoWriter.Close ⟨none, none, none, some "c", none, none⟩).2 = some "c"
    ∧ ((demoWriter.Close
        ⟨none, none, none, some "c", none, none⟩).1).checkpointExists = false
    ∧ (demoWriter.Close noCloseFaults).2 = none
    ∧ ((demoWriter.Close noCloseFaults).1).checkpointExists = true := by
  have h1 := (close_checkpoint_gating demoWriter
    ⟨none, none, none, some "c", none, none⟩ rfl rfl).1 "c" rfl
  have h2 := (close_checkpoint_gating demoWriter noCloseFaults rfl rfl).2.1
    rfl rfl
  refine ⟨h1.1, ?_, ?_, ?_⟩
  · rw [h1.2]
    decide
  · rw [h2]
  · rw [h2]

theorem close_cycle_general (w1 : Writer)
    (ws : List (String × List (List Nat)))
    (h : ∀ p ∈ ws, totalSize p.2 ≠ 0)
    (hinfo : w1.infoFile = []) (hidx : w1.currIdx = 0) :
    ((runWrites w1 ws).Close noCloseFaults).2 = none
    ∧ (((runWrites w1 ws).Close noCloseFaults).1).checkpointExists = true
    ∧ (((runWrites w1 ws).Close noCloseFaults).1).infoFile =
        [⟨w1.start, w1.blockSize, (ws.length : Int)⟩] := by
  have hf := runWrites_frame ws w1
  have hcx := runWrites_currIdx ws w1 h
  rw [Close_noFaults]
  refine ⟨rfl, rfl, ?_⟩
  dsimp only
  rw [hf.2.2.1, hinfo, hcx, hidx, hf.1, hf.2.1]
  simp [xtimeToNanoseconds]

/-- Claim C2: after a successful `Open`, n successful non-empty `WriteAll`
calls and a successful `Close`, the checkpoint exists and the info record has
`entries = n` (the final `currIdx`), `start` equal to the `blockStart`
recorded at `Open` (nanoseconds), and `blockSize` equal to the writer's
configured block size. -/
theorem close_cycle_info_record (w : Writer) (shard : Nat) (blockStart : Int)
    (ws : List (String × List (List Nat)))
    (h : ∀ p ∈ ws, totalSize p.2 ≠ 0) :
    ((runWrites ((w.Open shard blockStart noOpenFaults).1) ws).Close
        noCloseFaults).2 = none
    ∧ (((runWrites ((w.Open shard blockStart noOpenFaults).1) ws).Close
        noCloseFaults).1).checkpointExists = true
    ∧ (((runWrites ((w.Open shard blockStart noOpenFaults).1) ws).Close
        noCloseFaults).1).infoFile =
        [⟨blockStart, w.blockSize, (ws.length : Int)⟩] := by
  rw [Open_noFaults]
  exact close_cycle_general _ ws h rfl rfl

/-- Witness for C2 at the spec's concrete scenario: two non-empty writes give
an info record with entries 2, the demo block start and block size. -/
theorem close_cycle_info_record_witness :
    ((runWrites ((demoWriter.Open 3 1234 noOpenFaults).1)
        [("seriesA", [[1, 2, 3]]), ("seriesC", [[4, 5], [6, 7]])]).Close
        noCloseFaults).2 = none
    ∧ (((runWrites ((demoWriter.Open 3 1234 noOpenFaults).1)
        [("seriesA", [[1, 2, 3]]), ("seriesC", [[4, 5], [6, 7]])]).Close
        noCloseFaults).1).checkpointExists = true
    ∧ (((runWrites ((demoWriter.Open 3 1234 noOpenFaults).1)
        [("seriesA", [[1, 2, 3]]), ("seriesC", [[4, 5], [6, 7]])]).Close
        noCloseFaults).1).infoFile = [⟨1234, 7200000000000, 2⟩] := by
  have h := close_cycle_info_record demoWriter 3 1234
    [("seriesA", [[1, 2, 3]]), ("seriesC", [[4, 5], [6, 7]])] (by decide)
  exact ⟨h.1, h.2.1, h.2.2⟩

/-- Claim C3: on an open writer, after any sequence of fault-free writes the
i-th index record (0-based, write order) has `index = i` for every
`i < currIdx` — indices are contiguous, strictly increasing and start at 0 —
and a successful non-empty `WriteAll` increments `currIdx` by exactly 1. -/
theorem index_records_contiguous (w : Writer) (shard : Nat) (blockStart : Int)
    (ws : List (String × List (List Nat))) (key : String)
    (data : List (List Nat)) (h : totalSize data ≠ 0) :
    (runWrites ((w.Open shard blockStart noOpenFaults).1) ws).currIdx
      = ((runWrites ((w.Open shard blockStart noOpenFaults).1)
          ws).indexFile.length : Int)
    ∧ (∀ i, i < (runWrites ((w.Open shard blockStart noOpenFaults).1)
          ws).indexFile.length →
        ((runWrites ((w.Open shard blockStart noOpenFaults).1)
            ws).indexFile.getD i default).idx = (i : Int))
    ∧ ((runWrites ((w.Open shard blockStart noOpenFaults).1) ws).WriteAll
        key data noWriteFaults).2 = none
    ∧ (((runWrites ((w.Open shard blockStart noOpenFaults).1) ws).WriteAll
        key data noWriteFaults).1).currIdx
      = (runWrites ((w.Open shard blockStart noOpenFaults).1) ws).currIdx
          + 1 := by
  have hinv := runWrites_inv ws _ (open_writerInv w shard blockStart)
  refine ⟨hinv.1, hinv.2.1, ?_, ?_⟩
  · rw [WriteAll_pos _ _ _ h]
  · rw [WriteAll_pos _ _ _ h]

/-- Witness for C3: after writes including a skipped empty one, record 1 has
index 1, and one more non-empty write bumps `currIdx` from 2 to 3. -/
theorem index_records_contiguous_witness :
    totalSize [[7, 8]] ≠ 0
    ∧ 1 < (runWrites ((demoWriter.Open 3 5 noOpenFaults).1)
        demoWs).indexFile.length
    ∧ ((runWrites ((demoWriter.Open 3 5 noOpenFaults).1)
        demoWs).indexFile.getD 1 default).idx = 1
    ∧ (((runWrites ((demoWriter.Open 3 5 noOpenFaults).1) demoWs).WriteAll
        "seriesD" [[7, 8]] noWriteFaults).1).currIdx
      = (runWrites ((demoWriter.Open 3 5 noOpenFaults).1) demoWs).currIdx
          + 1 := by
  have h := index_records_contiguous demoWriter 3 5 demoWs "seriesD" [[7, 8]]
    (by decide)
  exact ⟨by decide, by decide, h.2.1 1 (by decide), h.2.2.2⟩

/-- Claim C7: over an open-to-close cycle of successful writes, the sum of the
`size` fields in the index file equals the number of bytes in the data file,
and each `WriteAll` appends its segments' bytes to the data file in sequence
order, contiguously, with no interleaving from other calls. -/
theorem index_sizes_match_data_bytes (w : Writer) (shard : Nat)
    (blockStart : Int) (ws : List (String × List (List Nat))) (key : String)
    (data : List (List Nat)) (h : totalSize data ≠ 0) :
    ((runWrites ((w.Open shard blockStart noOpenFaults).1) ws).Close
        noCloseFaults).2 = none
    ∧ sumSizes ((((runWrites ((w.Open shard blockStart noOpenFaults).1)
          ws).Close noCloseFaults).1).indexFile)
      = (((((runWrites ((w.Open shard blockStart noOpenFaults).1) ws).Close
          noCloseFaults).1).dataFile).length : Int)
    ∧ (((runWrites ((w.Open shard blockStart noOpenFaults).1) ws).WriteAll
        key data noWriteFaults).1).dataFile
      = (runWrites ((w.Open shard blockStart noOpenFaults).1) ws).dataFile
          ++ data.flatten := by
  have hinv := runWrites_inv ws _ (open_writerInv w shard blockStart)
  rw [Close_noFaults]
  refine ⟨rfl, ?_, ?_⟩
  · dsimp only
    exact hinv.2.2
  · rw [WriteAll_pos _ _ _ h]

/-- Witness for C7: three bytes then two segments of one byte each; the index
sizes sum to the five data bytes and the last write appended contiguously. -/
theorem index_sizes_match_data_bytes_witness :
    totalSize [[4], [5]] ≠ 0
    ∧ sumSizes ((((runWrites ((demoWriter.Open 3 5 noOpenFaults).1)
          [("seriesA", [[1, 2, 3]])]).Close noCloseFaults).1).indexFile)
      = (((((runWrites ((demoWriter.Open 3 5 noOpenFaults).1)
          [("seriesA", [[1, 2, 3]])]).Close
          noCloseFaults).1).dataFile).length : Int)
    ∧ (((runWrites ((demoWriter.Open 3 5 noOpenFaults).1)
        [("seriesA", [[1, 2, 3]])]).WriteAll "seriesC" [[4], [5]]
        noWriteFaults).1).dataFile
      = (runWrites ((demoWriter.Open 3 5 noOpenFaults).1)
          [("seriesA", [[1, 2, 3]])]).dataFile ++ [4, 5] := by
  have h := index_sizes_match_data_bytes demoWriter 3 5
    [("seriesA", [[1, 2, 3]])] "seriesC" [[4], [5]] (by decide)
  exact ⟨by decide, h.2.1, h.2.2⟩

end M3FS
